import Mathlib

/-!
Verification of the openaur assistant backend: a shallow embedding of the
two-stage LLM pipeline (`src/services/two_stage_processor.py`,
`src/services/analysis_engine.py`), the preview/merge logic of the chat route
(`src/routes/chat.py`), and the SQLite fallback of the memory store
(`src/services/openmemory.py`), together with theorems settling the spec's
testable properties.

Python strings are modelled as `String` / `List Char`; where Python lowers
and compares case-insensitively we work on the lists of code points
(`List ℕ`), with ASCII lowering as in CPython's fast path (the sources only
ever compare against ASCII keyword literals).  Floats that the code only
ever adds, multiplies and compares are modelled as rationals `ℚ`.
Fallible Python code is modelled with `Except`; `async` functions are
modelled as explicit state transitions on the memory store, so that a call
whose coroutine is never awaited shows up as a transition that is built but
not applied.
-/

namespace Openaur

/-! ### Python value model (what `json.loads` can return) -/

/-- Values produced by Python's `json.loads` (plus `None` for `.get` misses). -/
inductive PyVal where
  | pynull : PyVal
  | pybool : Bool → PyVal
  | pynum : ℚ → PyVal
  | pystr : String → PyVal
  | pylist : List PyVal → PyVal
  | pydict : List (String × PyVal) → PyVal
deriving Repr

/-- Python `dict.get(key, default)` on a `PyVal` known to be a dict;
`none` when the receiver is not a dict (where CPython raises
`AttributeError`). -/
def pyGet : PyVal → String → Option PyVal
  | PyVal.pydict kvs, k => (kvs.find? (fun kv => kv.1 = k)).map (fun kv => kv.2)
  | _, _ => none

/-- Python truthiness of a `PyVal` (`None`, `False`, `0`, `""`, `[]`, `{}`
are falsy). -/
def pyTruthy : PyVal → Bool
  | PyVal.pynull => false
  | PyVal.pybool b => b
  | PyVal.pynum q => q ≠ 0
  | PyVal.pystr s => s ≠ ""
  | PyVal.pylist l => ¬l.isEmpty
  | PyVal.pydict l => ¬l.isEmpty

/-! ### Code-point helpers (Python `str.lower`, `strip`, `in`, `startswith`) -/

/-- Code points of a string. -/
def codes (s : String) : List ℕ := s.data.map Char.toNat

/-- ASCII lowering of one code point, as CPython's `str.lower` does for the
ASCII range (the repository only compares against ASCII literals). -/
def lowerN (n : ℕ) : ℕ := if 65 ≤ n ∧ n ≤ 90 then n + 32 else n

/-- Python `s.lower()` on code points. -/
def low (s : String) : List ℕ := (codes s).map lowerN

/-- Python whitespace stripped by a bare `str.strip()`:
`\t \n \v \f \r space`. -/
def isWsCode (n : ℕ) : Bool := n = 9 || n = 10 || n = 11 || n = 12 || n = 13 || n = 32

/-- Python `str.strip()` (both ends) over code points. -/
def stripWs (l : List ℕ) : List ℕ :=
  ((l.dropWhile isWsCode).reverse.dropWhile isWsCode).reverse

/-- Substring test `needle in hay` over code points. -/
def hasInfixL : List ℕ → List ℕ → Bool
  | [], n => n.isEmpty
  | h :: t, n => n.isPrefixOf (h :: t) || hasInfixL t n

/-! ### SQL `LIKE` matching (SQLite `ILIKE` used by `retrieve`)

`Memory.content.ilike(f"%{query.lower()}%")` compares the lowercased
content against the pattern, where `%` matches any sequence and `_` any
single code point.  The matcher is given explicit gas so that it is
structurally recursive (and hence kernel-computable); `likeMatch` supplies
enough gas for the match to be total. -/

/-- Gas-indexed SQL LIKE matcher over code points: `likeGas g pat text`.
`37` is `%`, `95` is `_`. -/
def likeGas : ℕ → List ℕ → List ℕ → Bool
  | 0, _, _ => false
  | _ + 1, [], [] => true
  | _ + 1, [], _ :: _ => false
  | g + 1, c :: p, t =>
    if c = 37 then
      likeGas g p t ||
        (match t with
         | [] => false
         | _ :: t2 => likeGas g (c :: p) t2)
    else
      match t with
      | [] => false
      | d :: t2 => (c = 95 || c = d) && likeGas g p t2

/-- SQL LIKE matching: `pat.length + text.length + 1` gas always suffices. -/
def likeMatch (p t : List ℕ) : Bool := likeGas (p.length + t.length + 1) p t

/-! ### SHA-256 (`hashlib.sha256(content.encode()).hexdigest()[:16]`)

The SQLite fallback of `OpenMemoryService.store` derives the primary key of a
memory from the SHA-256 of its UTF-8 encoded content.  We embed the full
FIPS 180-4 algorithm on lists of byte values (`ℕ < 256`), with 32-bit words
as `ℕ` reduced modulo `2^32`. -/

/-- Reduce to a 32-bit word. -/
def w32 (x : ℕ) : ℕ := x % 4294967296

/-- Right rotation of a 32-bit word. -/
def rotr (n x : ℕ) : ℕ := w32 ((x >>> n) ||| (x <<< (32 - n)))

/-- SHA-256 Σ₀. -/
def bigS0 (x : ℕ) : ℕ := rotr 2 x ^^^ rotr 13 x ^^^ rotr 22 x

/-- SHA-256 Σ₁. -/
def bigS1 (x : ℕ) : ℕ := rotr 6 x ^^^ rotr 11 x ^^^ rotr 25 x

/-- SHA-256 σ₀. -/
def smallS0 (x : ℕ) : ℕ := rotr 7 x ^^^ rotr 18 x ^^^ (x >>> 3)

/-- SHA-256 σ₁. -/
def smallS1 (x : ℕ) : ℕ := rotr 17 x ^^^ rotr 19 x ^^^ (x >>> 10)

/-- SHA-256 Ch. -/
def chF (x y z : ℕ) : ℕ := (x &&& y) ^^^ ((x ^^^ 4294967295) &&& z)

/-- SHA-256 Maj. -/
def majF (x y z : ℕ) : ℕ := (x &&& y) ^^^ (x &&& z) ^^^ (y &&& z)

/-- SHA-256 round constants. -/
def shaK : List ℕ :=
  [1116352408, 1899447441, 3049323471, 3921009573, 961987163,
   1508970993, 2453635748, 2870763221, 3624381080, 310598401,
   607225278, 1426881987, 1925078388, 2162078206, 2614888103,
   3248222580, 3835390401, 4022224774, 264347078, 604807628,
   770255983, 1249150122, 1555081692, 1996064986, 2554220882,
   2821834349, 2952996808, 3210313671, 3336571891, 3584528711,
   113926993, 338241895, 666307205, 773529912, 1294757372,
   1396182291, 1695183700, 1986661051, 2177026350, 2456956037,
   2730485921, 2820302411, 3259730800, 3345764771, 3516065817,
   3600352804, 4094571909, 275423344, 430227734, 506948616,
   659060556, 883997877, 958139571, 1322822218, 1537002063,
   1747873779, 1955562222, 2024104815, 2227730452, 2361852424,
   2428436474, 2756734187, 3204031479, 3329325298]

/-- SHA-256 initial hash state. -/
def shaH0 : List ℕ :=
  [1779033703, 3144134277, 1013904242, 2773480762, 1359893119,
   2600822924, 528734635, 1541459225]

/-- Big-endian byte decomposition: `bytesBE k n` is the `k` lowest bytes of
`n`, most significant first. -/
def bytesBE : ℕ → ℕ → List ℕ
  | 0, _ => []
  | k + 1, n => bytesBE k (n >>> 8) ++ [n &&& 255]

/-- SHA-256 message padding: `0x80`, zeros to 56 mod 64, then the bit length
as 8 big-endian bytes. -/
def padMsg (m : List ℕ) : List ℕ :=
  let len1 := m.length + 1
  let zeros := (120 - (len1 % 64)) % 64
  m ++ [128] ++ List.replicate zeros 0 ++ bytesBE 8 (8 * m.length)

/-- Group bytes into big-endian 32-bit words. -/
def wordsBE : List ℕ → List ℕ
  | b1 :: b2 :: b3 :: b4 :: rest =>
      (((b1 * 256 + b2) * 256 + b3) * 256 + b4) :: wordsBE rest
  | _ => []

/-- Extend a 16-word block to the 64-word message schedule. -/
def schedExt (ws : List ℕ) : List ℕ :=
  (List.range 48).foldl
    (fun acc _ =>
      let l := acc.length
      acc ++ [w32 (smallS1 (acc.getD (l - 2) 0) + acc.getD (l - 7) 0 +
        smallS0 (acc.getD (l - 15) 0) + acc.getD (l - 16) 0)])
    ws

/-- One SHA-256 compression step over eight working variables. -/
def shaStep (w : List ℕ) (st : List ℕ) (i : ℕ) : List ℕ :=
  match st with
  | [a, b, c, d, e, f, g, hh] =>
    let t1 := w32 (hh + bigS1 e + chF e f g + shaK.getD i 0 + w.getD i 0)
    let t2 := w32 (bigS0 a + majF a b c)
    [w32 (t1 + t2), a, b, c, w32 (d + t1), e, f, g]
  | _ => st

/-- Compress one 16-word block into the running hash state. -/
def compressBlock (h : List ℕ) (block : List ℕ) : List ℕ :=
  let w := schedExt block
  let fin := (List.range 64).foldl (shaStep w) h
  List.zipWith (fun x y => w32 (x + y)) h fin

/-- SHA-256 of a byte list, as 32 output bytes. -/
def sha256 (m : List ℕ) : List ℕ :=
  let ws := wordsBE (padMsg m)
  let nBlocks := ws.length / 16
  let final := (List.range nBlocks).foldl
    (fun h i => compressBlock h ((ws.drop (16 * i)).take 16)) shaH0
  (final.map (bytesBE 4)).flatten

/-- Lower-case hex digit for a value below 16. -/
def hexChar (n : ℕ) : Char :=
  if n < 10 then Char.ofNat (48 + n) else Char.ofNat (87 + n)

/-- Lower-case hex string of a byte list (Python `hexdigest()`). -/
def hexStr (bytes : List ℕ) : List Char :=
  (bytes.map (fun b => [hexChar (b >>> 4), hexChar (b &&& 15)])).flatten

/-- UTF-8 encoding of one code point (Python `str.encode()`). -/
def utf8Enc (n : ℕ) : List ℕ :=
  if n < 128 then [n]
  else if n < 2048 then [192 + n / 64, 128 + n % 64]
  else if n < 65536 then [224 + n / 4096, 128 + (n / 64) % 64, 128 + n % 64]
  else [240 + n / 262144, 128 + (n / 4096) % 64, 128 + (n / 64) % 64, 128 + n % 64]

/-- UTF-8 bytes of a string. -/
def utf8Bytes (s : String) : List ℕ := (s.data.map (fun c => utf8Enc c.toNat)).flatten

/-- Memory id of a content string:
`hashlib.sha256(content.encode()).hexdigest()[:16]`
(`src/services/openmemory.py`, line 96). -/
def memoryId (content : String) : String :=
  String.mk ((hexStr (sha256 (utf8Bytes content))).take 16)

/-! ### Memory store: the SQLite fallback of `OpenMemoryService`
(`src/services/openmemory.py`)

The service delegates to the external `openmemory` SDK when it is importable;
everything below embeds the repository's own SQLite fallback branch, which is
the code under `src/`.  A `Memory` row carries the columns of the `memories`
table that the fallback logic reads or writes (`meta` is written but never
read by any code under `src/` and is omitted). -/

/-- A row of the `memories` table (SQLite fallback model, openmemory.py
lines 25-38).  `importance` is a float in the source, modelled as `ℚ`;
timestamps are abstract ticks `ℕ`. -/
structure Memory where
  id : String
  content : String
  memory_type : String
  importance : ℚ
  tags : List String
  created_at : ℕ
  last_accessed : ℕ
  access_count : ℕ
deriving DecidableEq, Repr

/-- The memory table, in insertion order. -/
abbrev MemStore := List Memory

/-- SQLite fallback of `OpenMemoryService.store` (openmemory.py lines 95-115):
the id is `hashlib.sha256(content.encode()).hexdigest()[:16]`, the row is
inserted and committed.  Because `id` is the primary key, committing a row
whose id is already present raises `IntegrityError`; the result carries the
new table and the id of the stored row. -/
def sqliteStore (db : MemStore) (now : ℕ) (content : String)
    (memory_type : String) (importance : ℚ) (tags : List String) :
    Except String (MemStore × String) :=
  if (db.map (fun m => m.id)).contains (memoryId content) then
    Except.error "IntegrityError: UNIQUE constraint failed: memories.id"
  else
    Except.ok (db ++ [⟨memoryId content, content, memory_type, importance, tags,
      now, now, 0⟩], memoryId content)

/-- The SQL pattern `f"%\x7bquery.lower()\x7d%"` built by `retrieve`, then
lowered once more by the case-insensitive `ilike` comparison. -/
def ilikePattern (query : String) : List ℕ := (37 :: (low query ++ [37])).map lowerN

/-- Does `Memory.content.ilike(f"%\x7bquery.lower()\x7d%")` hold?  SQL `ILIKE`
compares the lowercased content against the lowercased pattern. -/
def contentMatches (query : String) (m : Memory) : Bool :=
  likeMatch (ilikePattern query) (low m.content)

/-- The importance- and type-filtered pool that `retrieve` selects from
(openmemory.py lines 163-166): importance at least `min_salience`, then the
optional `memory_type` equality filter. -/
def retrievePool (db : MemStore) (memory_type : Option String)
    (min_salience : ℚ) : List Memory :=
  let q1 := db.filter (fun m => min_salience ≤ m.importance)
  match memory_type with
  | none => q1
  | some t => q1.filter (fun m => m.memory_type = t)

/-- SQLite fallback of `OpenMemoryService.retrieve` (openmemory.py lines
160-197).  `query == "*"` lists by recency; otherwise rows whose content
ILIKE-matches `%query.lower()%` are ordered by importance descending.  SQL
leaves the order of ties unspecified; a stable sort models it.  The
access-metric update that follows (bumping `last_accessed`/`access_count` of
the returned rows) touches only fields no returned value exposes — the
returned dicts are built from `id/content/memory_type/importance/tags` — so
the selection is modelled on the table as queried. -/
def retrieveSqlite (db : MemStore) (query : String) (memory_type : Option String)
    (limit : ℕ) (min_salience : ℚ) : List Memory :=
  let pool := retrievePool db memory_type min_salience
  if query = "*" then
    (List.insertionSort (fun a b => b.last_accessed ≤ a.last_accessed) pool).take limit
  else
    (List.insertionSort (fun a b => b.importance ≤ a.importance)
      (pool.filter (fun m => contentMatches query m))).take limit

/-- `OpenMemoryService.reinforce` in the SQLite fallback (openmemory.py lines
199-207): when `self.use_sdk` is false the body is only `return False` — no
row is read or written.  (With the SDK active the call is delegated to
`client.reinforce`, code external to this repository.) -/
def reinforceSqlite (db : MemStore) (memory_id : String) (amount : ℚ) :
    Bool × MemStore :=
  (false, db)

/-- Modelled from the spec: no decay implementation exists under `src/` — the
SQLite fallback has none, and decay is delegated to the external `openmemory`
SDK.  Spec §4.5: "Decay multiplies importance by a fixed factor per elapsed
hour"; §8: "Memory `importance` after `decay` applied `h` hours is
`importance * rate^h`".  `scripts/preload_memory.py` documents the fixed rate
as 0.95 per hour. -/
def decay (rate : ℚ) (importance : ℚ) (h : ℕ) : ℚ := importance * rate ^ h

/-- The fixed hourly decay factor documented in `scripts/preload_memory.py`
("Importance scoring with time decay (0.95 per hour)"). -/
def DECAY_RATE : ℚ := mkRat 95 100

/-! ### Two-stage processor (`src/services/two_stage_processor.py`)

The network and the Python `json` module are the only external effects; an
`Env` packages them: `fastOutcome` gives the result of the fast-model HTTP
interaction for a (system prompt, user message) pair, `qualityOutcome` the
quality-model interaction, `jsonParse` is `json.loads` (returning `none`
where CPython would raise), and `registryHas` tells whether
`yaml_reg.load_action(tool)` finds a manifest.  Remote-call counting threads
a `ℕ` through every function that can hit the network. -/

/-- Outcome of one guarded HTTP call in `_call_fast`: a 200 response whose
body parsed and contained `choices[0].message.content`, a non-200 status, or
a raised exception (network error, or `.json()`/key access failing — all
caught by the surrounding `try`). -/
inductive HttpResult where
  | success (content : String)
  | badStatus (text : String)
  | exn (msg : String)

/-- Outcome of the quality-model HTTP interaction in `call_quality`:
`success` carries `choices[0].message.content`, `data.get("model")` and
`data.get("usage", \x7b\x7d)`. -/
inductive QualityOutcome where
  | success (content : String) (model : Option String) (usage : PyVal)
  | badStatus (text : String)
  | exn (msg : String)

/-- One joined result of `asyncio.gather(..., return_exceptions=True)` in
`chat_with_preview`: either a captured exception, or a response with a
status code and — when `.json()` plus the `choices[0].message.content` path
succeed — the content and the optional `model` field of the body. -/
inductive GatherItem where
  | exn (e : String)
  | resp (status : ℕ) (parsed : Option (String × Option String))

/-- A Python exception, by its rendered message. -/
abbrev PyErr := String

/-- The external world of one request: API-key validity, the fast/quality
model interactions, `json.loads`, and the YAML action registry. -/
structure Env where
  has_valid_api_key : Bool
  fast_model : String
  fastOutcome : String → String → HttpResult
  qualityOutcome : QualityOutcome
  jsonParse : String → Option PyVal
  registryHas : String → Bool

/-- `TwoStageProcessor.QUALITY_MODEL`. -/
def QUALITY_MODEL : String := "openrouter/auto"

/-- Keyword fallback string for package intents
(two_stage_processor.py line 88). -/
def fallback_package_json : String :=
  "\x7b\"intent\": \"package\", \"needs_action\": true, \"needs_package\": true, \"needs_memory\": false, \"tools_mentioned\": [\"pacman\", \"yay\"], \"confidence\": 0.7\x7d"

/-- Keyword fallback string for action intents (line 92). -/
def fallback_action_json : String :=
  "\x7b\"intent\": \"action\", \"needs_action\": true, \"needs_package\": false, \"needs_memory\": false, \"tools_mentioned\": [], \"confidence\": 0.7\x7d"

/-- Keyword fallback string for memory intents (line 94). -/
def fallback_memory_json : String :=
  "\x7b\"intent\": \"memory\", \"needs_action\": false, \"needs_package\": false, \"needs_memory\": true, \"tools_mentioned\": [], \"confidence\": 0.6\x7d"

/-- Keyword fallback string for general chat (line 96). -/
def fallback_chat_json : String :=
  "\x7b\"intent\": \"chat\", \"needs_action\": false, \"needs_package\": false, \"needs_memory\": false, \"tools_mentioned\": [], \"confidence\": 0.9\x7d"

/-- `TwoStageProcessor._fallback_analysis` (lines 82-96): keyword-based
intent JSON, no network.  The `system_prompt` argument is accepted and
ignored, as in the source. -/
def fallback_analysis (system_prompt user_message : String) : String :=
  let msg_lower := low user_message
  if ["install", "package", "apt", "yay", "pacman"].any
      (fun w => hasInfixL msg_lower (codes w)) then
    fallback_package_json
  else if ["run", "execute", "command", "git", "docker", "build"].any
      (fun w => hasInfixL msg_lower (codes w)) then
    fallback_action_json
  else if ["remember", "previous", "before", "said"].any
      (fun w => hasInfixL msg_lower (codes w)) then
    fallback_memory_json
  else
    fallback_chat_json

/-- `TwoStageProcessor._call_fast` (lines 44-80): without a valid API key the
keyword fallback is returned with no network call; otherwise one HTTP call is
made and any non-200 status or exception also falls back.  The function is
total — every failure path returns the fallback string. -/
def call_fast (env : Env) (n : ℕ) (system_prompt user_message : String) :
    ℕ × String :=
  if !env.has_valid_api_key then
    (n, fallback_analysis system_prompt user_message)
  else
    match env.fastOutcome system_prompt user_message with
    | HttpResult.success c => (n + 1, c)
    | HttpResult.badStatus _ => (n + 1, fallback_analysis system_prompt user_message)
    | HttpResult.exn _ => (n + 1, fallback_analysis system_prompt user_message)

/-- `TwoStageProcessor.is_simple_query` (lines 98-133). -/
def is_simple_query (user_message : String) : Bool :=
  let msg_lower := stripWs (low user_message)
  let greetings := ["hi", "hello", "hey", "howdy", "greetings", "yo", "sup"]
  if greetings.any (fun g => msg_lower == codes g) ||
      greetings.any (fun g => (codes g).isPrefixOf msg_lower) then
    true
  else
    let simple_patterns := ["how are you", "status", "health", "heart",
      "what can you do", "help", "info", "about", "time", "date", "weather",
      "ok", "thanks", "thank you", "bye", "goodbye"]
    if simple_patterns.any (fun p => hasInfixL msg_lower (codes p)) then
      true
    else if msg_lower.length < 20 && !(msg_lower.contains 63) then
      true
    else
      false

/-- Python `str.strip()` on a character list. -/
def pyStripC (l : List Char) : List Char :=
  ((l.dropWhile (fun c => isWsCode c.toNat)).reverse.dropWhile
    (fun c => isWsCode c.toNat)).reverse

/-- Python `str.strip()` on a string. -/
def pyStrip (s : String) : String := String.mk (pyStripC s.data)

/-- Python `str.strip('"')`. -/
def pyStripQuotes (s : String) : String :=
  String.mk
    (((s.data.dropWhile (fun c => c = '"')).reverse.dropWhile
      (fun c => c = '"')).reverse)

/-- Substring test over character lists. -/
def hasInfixC : List Char → List Char → Bool
  | [], n => n.isEmpty
  | h :: t, n => n.isPrefixOf (h :: t) || hasInfixC t n

/-- A markdown fence: three backticks. -/
def fenceC : List Char := "```".data

/-- Characters before the first ``` fence (all of them when there is none). -/
def takeUntilFence : List Char → List Char
  | [] => []
  | c :: t => if fenceC.isPrefixOf (c :: t) then [] else c :: takeUntilFence t

/-- Characters after the first ``` fence (empty when there is none; callers
guard on the fence being present). -/
def afterFirstFence : List Char → List Char
  | [] => []
  | c :: t => if fenceC.isPrefixOf (c :: t) then t.drop 2 else afterFirstFence t

/-- Python `s.split("```")[1]`: the segment between the first fence and the
next one (or the end).  Well defined at every call site, where a fence is
known to occur so the split has at least two parts. -/
def splitPart1 (l : List Char) : List Char := takeUntilFence (afterFirstFence l)

/-- The markdown-fence stripping in `analyze_intent` (lines 161-168):
strip, drop a leading ```json, drop a leading ```, drop a trailing ```,
strip again. -/
def strip_fences_intent (result : String) : String :=
  let r := pyStripC result.data
  let r := if "```json".data.isPrefixOf r then r.drop 7 else r
  let r := if fenceC.isPrefixOf r then r.drop 3 else r
  let r := if fenceC.reverse.isPrefixOf r.reverse then r.take (r.length - 3) else r
  String.mk (pyStripC r)

/-- The fence stripping in `analyze_sentiment` (lines 199-204): strip, and if
the result starts with ``` take `result.split("```")[1]` and drop a leading
`json`, then strip. -/
def strip_fences_sentiment (result : String) : String :=
  let r := pyStripC result.data
  let r :=
    if fenceC.isPrefixOf r then
      let r2 := splitPart1 r
      if "json".data.isPrefixOf r2 then r2.drop 4 else r2
    else r
  String.mk (pyStripC r)

/-- The fence stripping in `suggest_actions` (lines 257-262): like the
sentiment variant but triggered by ``` anywhere in the string. -/
def strip_fences_suggest (result : String) : String :=
  let r := pyStripC result.data
  let r :=
    if hasInfixC r fenceC then
      let r2 := splitPart1 r
      if "json".data.isPrefixOf r2 then r2.drop 4 else r2
    else r
  String.mk (pyStripC r)

/-- The intent-analysis system prompt (lines 137-153). -/
def intent_system_prompt : String :=
  "You are an intent analysis system. Analyze the user\x27s query and return a JSON object with:\n\x7b\n  \"intent\": \"action|package|memory|chat\",\n  \"needs_action\": true/false,\n  \"needs_package\": true/false,\n  \"needs_memory\": true/false,\n  \"tools_mentioned\": [\"tool1\", \"tool2\"],\n  \"confidence\": 0.0-1.0\n\x7d\n\nIntents:\n- action: User wants to run a command or tool\n- package: User wants to install/remove software\n- memory: User is referencing previous conversation\n- chat: General conversation\n\nBe concise. Return ONLY the JSON object."

/-- The sentiment-analysis system prompt (lines 184-193). -/
def sentiment_system_prompt : String :=
  "You are a sentiment analysis system. Analyze the user\x27s message and return a JSON object with:\n\x7b\n  \"sentiment\": \"positive|negative|neutral\",\n  \"emotion\": \"happy|sad|angry|frustrated|excited|confused|neutral\",\n  \"urgency\": 0.0-1.0,\n  \"complexity\": \"simple|medium|complex\",\n  \"tone\": \"casual|formal|technical|urgent\"\n\x7d\n\nBe concise. Return ONLY the JSON object."

/-- The memory-query-extraction system prompt (lines 219-226). -/
def memory_system_prompt : String :=
  "You are a memory query extractor. If the user is asking about something from a previous conversation, return the search query to find relevant memories. Otherwise return \"NONE\".\n\nExamples:\nUser: \"What did we discuss earlier?\" -> \"previous discussion\"\nUser: \"What was that command you mentioned?\" -> \"command\"\nUser: \"How do I install neovim?\" -> \"NONE\"\n\nReturn ONLY the search query or \"NONE\"."

/-- The action-suggestion system prompt with the available tools
interpolated (lines 242-251). -/
def suggest_system_prompt (available_tools : List String) : String :=
  "You are an action suggestion system. Based on the user\x27s query and available tools, suggest which actions to use.\n\nAvailable tools: "
  ++ String.intercalate ", " available_tools ++
  "\n\nReturn a JSON array of suggestions:\n[\n  \x7b\"tool\": \"tool_name\", \"command\": \"suggested_command\", \"confidence\": 0.0-1.0\x7d\n]\n\nReturn ONLY the JSON array."

/-- The hardcoded neutral default that `analyze_intent` returns when parsing
fails (lines 173-180). -/
def default_intent : PyVal :=
  PyVal.pydict [("intent", PyVal.pystr "chat"),
    ("needs_action", PyVal.pybool false),
    ("needs_package", PyVal.pybool false),
    ("needs_memory", PyVal.pybool false),
    ("tools_mentioned", PyVal.pylist []),
    ("confidence", PyVal.pynum (mkRat 1 2))]

/-- The hardcoded neutral default that `analyze_sentiment` returns when
parsing fails (lines 209-215). -/
def default_sentiment : PyVal :=
  PyVal.pydict [("sentiment", PyVal.pystr "neutral"),
    ("emotion", PyVal.pystr "neutral"),
    ("urgency", PyVal.pynum (mkRat 1 2)),
    ("complexity", PyVal.pystr "medium"),
    ("tone", PyVal.pystr "casual")]

/-- `TwoStageProcessor.analyze_intent` (lines 135-180): call the fast model,
strip markdown fences, `json.loads`; any error inside the `try` (only the
decode can fail — `_call_fast` is total) yields the hardcoded default. -/
def analyze_intent (env : Env) (n : ℕ) (user_message : String) : ℕ × PyVal :=
  let p := call_fast env n intent_system_prompt user_message
  match env.jsonParse (strip_fences_intent p.2) with
  | some j => (p.1, j)
  | none => (p.1, default_intent)

/-- `TwoStageProcessor.analyze_sentiment` (lines 182-215). -/
def analyze_sentiment (env : Env) (n : ℕ) (user_message : String) : ℕ × PyVal :=
  let p := call_fast env n sentiment_system_prompt user_message
  match env.jsonParse (strip_fences_sentiment p.2) with
  | some j => (p.1, j)
  | none => (p.1, default_sentiment)

/-- `TwoStageProcessor.extract_memory_query` (lines 217-236):
`result.strip().strip('"')`, and `"NONE"`/`"none"` means no query.  Nothing
inside the `try` can raise once `_call_fast` is total, so the `except` branch
is unreachable. -/
def extract_memory_query (env : Env) (n : ℕ) (user_message : String) :
    ℕ × Option String :=
  let p := call_fast env n memory_system_prompt user_message
  let r := pyStripQuotes (pyStrip p.2)
  if r = "NONE" || r = "none" then (p.1, none) else (p.1, some r)

/-- `TwoStageProcessor.suggest_actions` (lines 238-268): parse a JSON array
of suggestions; a parse failure or a non-list value yields `[]`. -/
def suggest_actions (env : Env) (n : ℕ) (user_message : String)
    (available_tools : List String) : ℕ × List PyVal :=
  let p := call_fast env n (suggest_system_prompt available_tools) user_message
  match env.jsonParse (strip_fences_suggest p.2) with
  | some (PyVal.pylist l) => (p.1, l)
  | some _ => (p.1, [])
  | none => (p.1, [])

/-- The response dict of `call_quality` / of one half of `chat_with_preview`:
`content`, the body's `model` field, and its `usage` field. -/
structure QualityResp where
  content : String
  model : Option String
  usage : PyVal

/-- `TwoStageProcessor.call_quality` (lines 270-330): one HTTP call to the
quality model; a non-200 status raises `Exception("Quality model error: …")`
and there is no `try` around the call, so network/parse failures propagate.
The message/payload construction that precedes the call is pure string and
dict building whose content feeds only the remote model; a raise inside it
(possible for non-dict context values) is subsumed by the `exn` outcome. -/
def call_quality (env : Env) (n : ℕ) : ℕ × Except PyErr QualityResp :=
  match env.qualityOutcome with
  | QualityOutcome.success c m u => (n + 1, Except.ok ⟨c, m, u⟩)
  | QualityOutcome.badStatus t =>
      (n + 1, Except.error ("Exception: Quality model error: " ++ t))
  | QualityOutcome.exn e => (n + 1, Except.error e)

/-- One model response inside a `chat_with_preview` result
(`\x7b"content": …, "model": …\x7d`). -/
structure PrevResp where
  content : String
  model : String
deriving DecidableEq, Repr

/-- The value returned by `chat_with_preview`: the `preview` and `quality`
halves, the analysis `context` passed through, and the `error` key — present
only on the outer-except path. -/
structure PreviewOut where
  preview : Option PrevResp
  quality : Option PrevResp
  context : PyVal
  error : Option String

/-- Parsing of one gathered response in `chat_with_preview` (lines 422-447):
an exception leaves the half `None`; a non-200 status leaves it `None`; a 200
body whose `.json()`/key access fails is caught per-branch and leaves it
`None`; otherwise the half is `\x7b"content", "model"\x7d` with the model
defaulted. -/
def parse_gather (item : GatherItem) (default_model : String) :
    Option PrevResp :=
  match item with
  | GatherItem.exn _ => none
  | GatherItem.resp status parsed =>
    if status = 200 then
      match parsed with
      | some (c, m) => some ⟨c, m.getD default_model⟩
      | none => none
    else none

/-- Does the message building at the start of `chat_with_preview` (lines
352-397) raise?  It does exactly when `context` is not a dict
(`context.get` → AttributeError), when a truthy `"sentiment"` value is not a
dict (`sentiment.get` → AttributeError), or when a truthy
`"relevant_memories"` value is not a list (`memories[:3]` → TypeError) or
contains a non-dict among its first three entries (`mem.get` →
AttributeError). -/
def context_build_raises (context : PyVal) : Bool :=
  match context with
  | PyVal.pydict _ =>
    let sentiment := (pyGet context "sentiment").getD (PyVal.pydict [])
    if pyTruthy sentiment && !(match sentiment with
        | PyVal.pydict _ => true | _ => false) then
      true
    else
      match (pyGet context "relevant_memories").getD (PyVal.pylist []) with
      | PyVal.pylist mems =>
        (mems.take 3).any (fun mem =>
          match mem with
          | PyVal.pydict _ => false
          | _ => true)
      | v => pyTruthy v
  | _ => true

/-- `TwoStageProcessor.chat_with_preview` (lines 332-470): fire both model
calls, parse each surviving half, and if quality failed while the preview
succeeded, promote the preview to quality (clearing the preview).  Only the
outer `except` — reachable through the message building, not through the
gathered call results, which `return_exceptions=True` captures — produces
the `"error"` key. -/
def chat_with_preview (env : Env) (context : PyVal)
    (fast_result quality_result : GatherItem) : PreviewOut :=
  if context_build_raises context then
    ⟨none, none, context, some "exception during preview message building"⟩
  else
    let preview := parse_gather fast_result env.fast_model
    let quality := parse_gather quality_result QUALITY_MODEL
    match quality with
    | none =>
      match preview with
      | some p => ⟨none, some p, context, none⟩
      | none => ⟨none, none, context, none⟩
    | some q => ⟨preview, some q, context, none⟩

/-! ### Analysis engine and orchestrator (`src/services/analysis_engine.py`) -/

/-- The `AnalysisResult` dataclass (lines 18-26), with the `actions` dict
split into its fields.  `can_execute` is written by `_suggest_actions` and
read nowhere; when `needs_action` is falsy the initial
`\x7b"available": [], "suggested": []\x7d` dict has no such key, modelled as
`false`. -/
structure AnalysisResult where
  sentiment : PyVal
  intent : PyVal
  actionsAvailable : List String
  actionsSuggested : List PyVal
  canExecute : Bool
  relevant_memories : List PyVal
  thinking_summary : String

/-- The hard-coded tool list of `_get_available_tools` (lines 86-101). -/
def common_tools : List String :=
  ["git", "docker", "npm", "pip", "cargo", "make", "curl", "glab", "gh",
   "kubectl", "nvim", "code", "yay", "pacman"]

/-- Extract the strings of a parsed JSON list; `none` when an element is not
a string (where `yaml_reg.load_action(tool)` would raise building the
manifest path). -/
def listStrs : List PyVal → Option (List String)
  | [] => some []
  | PyVal.pystr s :: rest => (listStrs rest).map (fun l => s :: l)
  | _ :: _ => none

/-- Rendering of a `PyVal` into an f-string.  No claim reads any rendered
text (it only feeds prompts, tags of never-executed store coroutines and the
thinking summary), so nested containers are abbreviated rather than
reproducing CPython's `str`. -/
def pyValStr : PyVal → String
  | PyVal.pystr s => s
  | PyVal.pynum q => toString q
  | PyVal.pybool b => cond b "True" "False"
  | PyVal.pynull => "None"
  | PyVal.pylist _ => "[…]"
  | PyVal.pydict _ => "\x7b…\x7d"

/-- `AnalysisEngine._build_thinking_summary` (lines 123-162).  The numeric
`:.1f` / `:.0%` format specifiers are rendered by `toString` on the rational
instead of CPython's float formatting; no claim depends on this string. -/
def build_thinking_summary (sentiment intent : PyVal) (available : List String)
    (suggested : List PyVal) (memories : List PyVal) : String :=
  let emotion := pyValStr ((pyGet sentiment "emotion").getD (PyVal.pystr "neutral"))
  let urgency := pyValStr ((pyGet sentiment "urgency").getD (PyVal.pynum (mkRat 1 2)))
  let intent_type := pyValStr ((pyGet intent "intent").getD (PyVal.pystr "chat"))
  let confidence := pyValStr ((pyGet intent "confidence").getD (PyVal.pynum (mkRat 1 2)))
  let base := ["💭 **Analysis**",
    "• Mood: " ++ emotion ++ " (urgency: " ++ urgency ++ "/1.0)",
    "• Intent: " ++ intent_type ++ " (" ++ confidence ++ " confidence)"]
  let actionLines :=
    if pyTruthy ((pyGet intent "needs_action").getD PyVal.pynull) then
      ["• Action request detected"] ++
      (if available.isEmpty then [] else
        ["  - Available tools: " ++ String.intercalate ", " (available.take 5)]) ++
      (if suggested.isEmpty then [] else
        ["  - Suggestions: " ++ toString (suggested.take 3).length ++ " actions"])
    else []
  let memLines :=
    if memories.isEmpty then [] else
      ["• Found " ++ toString memories.length ++ " relevant memories"] ++
      (memories.take 2).map (fun mem =>
        let content := pyValStr ((pyGet mem "content").getD (PyVal.pystr ""))
        let shown := if 60 < content.length then content.take 60 ++ "..." else content
        "  - [" ++ pyValStr ((pyGet mem "type").getD PyVal.pynull) ++ "] " ++ shown)
  String.intercalate "\n" (base ++ actionLines ++ memLines)

/-- `AnalysisEngine.analyze` (lines 38-81).  The failure paths are exactly
the source's: a non-dict intent fails at `intent.get` (AttributeError); a
non-list `tools_mentioned` fails concatenating with `common_tools`
(TypeError); a non-string tool name fails inside `load_action`; and a truthy
extracted memory query reaches
`memories = self.memory.retrieve(memory_query, limit=5)` — an `async` call
with no `await`, so iterating the coroutine in the list comprehension raises
TypeError.  A falsy query leaves `relevant_memories = []`. -/
def engine_analyze (env : Env) (n : ℕ) (user_message session_id : String) :
    ℕ × Except PyErr AnalysisResult :=
  let (n1, sentiment) := analyze_sentiment env n user_message
  let (n2, intent) := analyze_intent env n1 user_message
  match intent with
  | PyVal.pydict _ =>
    match (pyGet intent "tools_mentioned").getD (PyVal.pylist []) with
    | PyVal.pylist ms =>
      match listStrs ms with
      | none => (n2, Except.error "TypeError: join() argument must be str")
      | some mentioned =>
        let available_tools := ((mentioned ++ common_tools).filter env.registryHas).dedup
        let (n3, acts) :=
          if pyTruthy ((pyGet intent "needs_action").getD PyVal.pynull) then
            let (n3, suggestions) := suggest_actions env n2 user_message available_tools
            (n3, (available_tools, suggestions, !suggestions.isEmpty))
          else
            (n2, ([], [], false))
        let (n4, memory_query) := extract_memory_query env n3 user_message
        match memory_query with
        | some q =>
          if q = "" then
            (n4, Except.ok ⟨sentiment, intent, acts.1, acts.2.1, acts.2.2, [],
              build_thinking_summary sentiment intent acts.1 acts.2.1 []⟩)
          else
            (n4, Except.error "TypeError: 'coroutine' object is not iterable")
        | none =>
          (n4, Except.ok ⟨sentiment, intent, acts.1, acts.2.1, acts.2.2, [],
            build_thinking_summary sentiment intent acts.1 acts.2.1 []⟩)
    | _ => (n2, Except.error "TypeError: can only concatenate list to list")
  | _ => (n2, Except.error "AttributeError: object has no attribute get")

/-- A Python coroutine object for `OpenMemoryService.store`: the suspended
state transition of the `async` function.  Creating one performs nothing;
only an `await` would apply it to the store. -/
def store_coroutine (now : ℕ) (content memory_type : String) (importance : ℚ)
    (tags : List String) : MemStore → Except String (MemStore × String) :=
  fun db => sqliteStore db now content memory_type importance tags

/-- `AnalysisEngine._store_interaction` (lines 241-287).  Every
`self.memory.store(...)` in the body is a call to an `async def` with no
`await`: each expression statement only creates a coroutine object, which is
discarded immediately and never executed (CPython emits "coroutine ...
was never awaited").  The memory table is therefore returned unchanged —
the built transitions below are never applied. -/
def store_interaction (db : MemStore) (now : ℕ)
    (user_message assistant_response : String) (analysis : AnalysisResult)
    (session_id : String) : MemStore :=
  let _c1 := store_coroutine now user_message "user_query" (mkRat 7 10)
    ["conversation",
     pyValStr ((pyGet analysis.intent "intent").getD (PyVal.pystr "chat")),
     "emotion:" ++ pyValStr ((pyGet analysis.sentiment "emotion").getD (PyVal.pystr "neutral"))]
  let _c2 := store_coroutine now assistant_response "assistant_response" (mkRat 6 10)
    ["conversation", "assistant"]
  let _c3 := analysis.actionsAvailable.map (fun tool =>
    store_coroutine now
      ("User query '" ++ user_message.take 50 ++ "...' involved tool: " ++ tool)
      "action_learning" (mkRat 8 10) ["action", tool, "learning"])
  db

/-- `AnalysisEngine.get_quality_response` (lines 164-193): build the prompt
(pure string assembly, elided), call the quality model, then
`_store_interaction` — whose store calls are never awaited. -/
def get_quality_response (env : Env) (db : MemStore) (n now : ℕ)
    (user_message : String) (analysis : AnalysisResult) (session_id : String) :
    (MemStore × ℕ) × Except PyErr QualityResp :=
  match call_quality env n with
  | (n1, Except.error e) => ((db, n1), Except.error e)
  | (n1, Except.ok resp) =>
    ((store_interaction db now user_message resp.content analysis session_id, n1),
      Except.ok resp)

/-- The result dict of `analyze_and_respond` (lines 344-355 and 361-372),
with the nested `analysis` dict flattened into fields. -/
structure RunResult where
  thinking : String
  response : String
  model : Option String
  usage : PyVal
  sentiment : PyVal
  intent : PyVal
  actions_available : List String
  quick_mode : Bool

/-- The canned sentiment of the quick path (lines 321-327). -/
def quick_sentiment : PyVal :=
  PyVal.pydict [("sentiment", PyVal.pystr "neutral"),
    ("emotion", PyVal.pystr "neutral"),
    ("urgency", PyVal.pynum (mkRat 3 10)),
    ("tone", PyVal.pystr "casual"),
    ("complexity", PyVal.pystr "low")]

/-- The zeroed usage dict of the quick path (line 348). -/
def zero_usage : PyVal :=
  PyVal.pydict [("prompt_tokens", PyVal.pynum 0),
    ("completion_tokens", PyVal.pynum 0),
    ("total_tokens", PyVal.pynum 0)]

/-- The canned response text of the quick path (lines 330-342). -/
def quick_response_text (user_message : String) : String :=
  let msg_lower := low user_message
  if ["hi", "hello", "hey", "howdy"].any (fun g => hasInfixL msg_lower (codes g)) then
    "Hello! I'm OpenAura, your AI assistant. How can I help you today?"
  else if hasInfixL msg_lower (codes "how are you") then
    "I'm operating at full capacity! My heart is beating strong and all systems are operational. How can I assist you?"
  else if hasInfixL msg_lower (codes "status") || hasInfixL msg_lower (codes "health") then
    "All systems are healthy! The Analysis Engine is operational, Two-Stage Processing is active, and my working memory has space available."
  else if hasInfixL msg_lower (codes "what can you do") || hasInfixL msg_lower (codes "help") then
    "I can help you with:\n- Package management (search/install with pacman/yay)\n- Running CLI tools and commands\n- Answering questions and providing info\n- Learning from our conversations\n- Managing sub-agents for complex tasks\n\nJust ask me anything!"
  else if hasInfixL msg_lower (codes "thank") then
    "You're welcome! I'm here whenever you need assistance."
  else
    "I understand. How can I help you with that?"

/-- The full quick-path return dict (lines 344-355). -/
def quick_run_result (user_message : String) (include_thinking : Bool) :
    RunResult where
  thinking := if include_thinking then "💭 Quick mode - simple query detected" else ""
  response := quick_response_text user_message
  model := some "openaura/heart"
  usage := zero_usage
  sentiment := quick_sentiment
  intent := PyVal.pydict [("intent", PyVal.pystr "chat"),
    ("needs_action", PyVal.pybool false)]
  actions_available := []
  quick_mode := true

/-- `analyze_and_respond` (lines 302-372): quick mode short-circuits when the
query is simple, otherwise the full two-stage pipeline runs.  The state is
the memory table together with the count of remote model calls made so
far. -/
def analyze_and_respond (env : Env) (db : MemStore) (n now : ℕ)
    (user_message session_id : String) (use_quick_mode include_thinking : Bool) :
    (MemStore × ℕ) × Except PyErr RunResult :=
  let is_simple := is_simple_query user_message
  if use_quick_mode && is_simple then
    ((db, n), Except.ok (quick_run_result user_message include_thinking))
  else
    match engine_analyze env n user_message session_id with
    | (n1, Except.error e) => ((db, n1), Except.error e)
    | (n1, Except.ok analysis) =>
      match get_quality_response env db n1 now user_message analysis session_id with
      | (st, Except.error e) => (st, Except.error e)
      | (st, Except.ok resp) =>
        (st, Except.ok
          { thinking := if include_thinking then analysis.thinking_summary else ""
            response := resp.content
            model := resp.model
            usage := resp.usage
            sentiment := analysis.sentiment
            intent := analysis.intent
            actions_available := analysis.actionsAvailable
            quick_mode := false })

/-! ### Chat route preview merging (`src/routes/chat.py`, lines 82-146) -/

/-- The preview-merging logic of the chat endpoint, given the
`chat_with_preview` result and the outcome that a fallback `gateway.chat`
call would have (the gateway can raise, which the route turns into a 500).
The value is `(ChatResponse.response, ChatResponse.preview_used)`. -/
def chat_route_merge (result : PreviewOut) (gateway_chat : Except String String) :
    Except String (String × Bool) :=
  match result.error with
  | some _ =>
    match gateway_chat with
    | Except.ok content => Except.ok (content, false)
    | Except.error e => Except.error e
  | none =>
    let preview_content := (result.preview.map (fun p => p.content)).getD ""
    let quality_content := (result.quality.map (fun p => p.content)).getD ""
    let pq :=
      if quality_content = "" ∧ preview_content ≠ "" then ("", preview_content)
      else (preview_content, quality_content)
    let preview_content := pq.1
    let quality_content := pq.2
    if preview_content ≠ "" ∧ quality_content ≠ "" ∧ preview_content ≠ quality_content then
      Except.ok ("*" ++ preview_content ++ "*\n\n---\n\n" ++ quality_content, true)
    else if quality_content ≠ "" then
      Except.ok (quality_content, true)
    else if preview_content ≠ "" then
      Except.ok (preview_content, true)
    else
      match gateway_chat with
      | Except.ok content => Except.ok (content, false)
      | Except.error e => Except.error e

/-- Parsed value of `fallback_package_json` under `json.loads`. -/
def fallback_package_val : PyVal :=
  PyVal.pydict [("intent", PyVal.pystr "package"),
    ("needs_action", PyVal.pybool true),
    ("needs_package", PyVal.pybool true),
    ("needs_memory", PyVal.pybool false),
    ("tools_mentioned", PyVal.pylist [PyVal.pystr "pacman", PyVal.pystr "yay"]),
    ("confidence", PyVal.pynum (mkRat 7 10))]

/-- Parsed value of `fallback_action_json` under `json.loads`. -/
def fallback_action_val : PyVal :=
  PyVal.pydict [("intent", PyVal.pystr "action"),
    ("needs_action", PyVal.pybool true),
    ("needs_package", PyVal.pybool false),
    ("needs_memory", PyVal.pybool false),
    ("tools_mentioned", PyVal.pylist []),
    ("confidence", PyVal.pynum (mkRat 7 10))]

/-- Parsed value of `fallback_memory_json` under `json.loads`. -/
def fallback_memory_val : PyVal :=
  PyVal.pydict [("intent", PyVal.pystr "memory"),
    ("needs_action", PyVal.pybool false),
    ("needs_package", PyVal.pybool false),
    ("needs_memory", PyVal.pybool true),
    ("tools_mentioned", PyVal.pylist []),
    ("confidence", PyVal.pynum (mkRat 3 5))]

/-- Parsed value of `fallback_chat_json` under `json.loads`. -/
def fallback_chat_val : PyVal :=
  PyVal.pydict [("intent", PyVal.pystr "chat"),
    ("needs_action", PyVal.pybool false),
    ("needs_package", PyVal.pybool false),
    ("needs_memory", PyVal.pybool false),
    ("tools_mentioned", PyVal.pylist []),
    ("confidence", PyVal.pynum (mkRat 9 10))]

/-- The modelled `json.loads` agrees with CPython on the four concrete
keyword-fallback strings (they are plain JSON objects). -/
def FallbacksParse (jp : String → Option PyVal) : Prop :=
  jp fallback_package_json = some fallback_package_val
  ∧ jp fallback_action_json = some fallback_action_val
  ∧ jp fallback_memory_json = some fallback_memory_val
  ∧ jp fallback_chat_json = some fallback_chat_val

/-- The structured value the classifier produces for a message when routed
through the keyword fallback: the `json.loads` image of the string
`_fallback_analysis` picks for it. -/
def expected_fallback_intent (user_message : String) : PyVal :=
  let msg_lower := low user_message
  if ["install", "package", "apt", "yay", "pacman"].any
      (fun w => hasInfixL msg_lower (codes w)) then
    fallback_package_val
  else if ["run", "execute", "command", "git", "docker", "build"].any
      (fun w => hasInfixL msg_lower (codes w)) then
    fallback_action_val
  else if ["remember", "previous", "before", "said"].any
      (fun w => hasInfixL msg_lower (codes w)) then
    fallback_memory_val
  else
    fallback_chat_val

/-- A concrete `json.loads` model that parses exactly the four fallback
strings. -/
def jsonParse0 (s : String) : Option PyVal :=
  if s = fallback_package_json then some fallback_package_val
  else if s = fallback_action_json then some fallback_action_val
  else if s = fallback_memory_json then some fallback_memory_val
  else if s = fallback_chat_json then some fallback_chat_val
  else none

/-- A concrete offline environment: no API key, every network interaction
fails, no registered tools. -/
def env0 : Env where
  has_valid_api_key := false
  fast_model := "openai/gpt-oss-20b:nitro"
  fastOutcome := fun _ _ => HttpResult.exn "ConnectError"
  qualityOutcome := QualityOutcome.exn "ConnectError"
  jsonParse := jsonParse0
  registryHas := fun _ => false

/-- A concrete online environment in which a full pipeline run succeeds: the
fast model answers `"NONE"` to the memory-extraction prompt and a plain chat
intent JSON to everything else, and the quality model answers. -/
def env2 : Env where
  has_valid_api_key := true
  fast_model := "openai/gpt-oss-20b:nitro"
  fastOutcome := fun sys _ =>
    if sys = memory_system_prompt then HttpResult.success "NONE"
    else HttpResult.success fallback_chat_json
  qualityOutcome := QualityOutcome.success "Done. I refactored it."
    (some "openrouter/auto") (PyVal.pydict [])
  jsonParse := jsonParse0
  registryHas := fun _ => false

/-- A concrete store on which the floor property of C7 is exercised. -/
def c7db : MemStore :=
  [⟨"id1", "alpha notes", "episodic", mkRat 9 10, [], 0, 0, 0⟩,
   ⟨"id2", "beta notes", "episodic", mkRat 1 4, [], 1, 1, 0⟩]

/-! ### Helper lemmas for the embedding -/

/-- Lowering a code point twice is the same as lowering it once. -/
theorem lowerN_idem (n : ℕ) : lowerN (lowerN n) = lowerN n := by
  unfold lowerN
  split
  next h =>
    have h2 : ¬(65 ≤ n + 32 ∧ n + 32 ≤ 90) := by omega
    rw [if_neg h2]
  next h =>
    rfl

/-- Unfolding `likeGas` with a `%` pattern head against the empty text. -/
theorem likeGas_pct_nil (g : ℕ) (p : List ℕ) :
    likeGas (g + 1) (37 :: p) [] = likeGas g p [] := by
  simp [likeGas]

/-- Unfolding `likeGas` with a `%` pattern head against a nonempty text. -/
theorem likeGas_pct_cons (g : ℕ) (p : List ℕ) (d : ℕ) (t : List ℕ) :
    likeGas (g + 1) (37 :: p) (d :: t) =
      (likeGas g p (d :: t) || likeGas g (37 :: p) t) := by
  simp [likeGas]

/-- Unfolding `likeGas` with a literal pattern head against the empty text. -/
theorem likeGas_lit_nil (g : ℕ) (c : ℕ) (hc : c ≠ 37) (p : List ℕ) :
    likeGas (g + 1) (c :: p) [] = false := by
  simp [likeGas, hc]

/-- Unfolding `likeGas` with a literal pattern head against a nonempty text. -/
theorem likeGas_lit_cons (g : ℕ) (c : ℕ) (hc : c ≠ 37) (p : List ℕ) (d : ℕ)
    (t : List ℕ) :
    likeGas (g + 1) (c :: p) (d :: t) = ((c = 95 || c = d) && likeGas g p t) := by
  simp [likeGas, hc]

/-- Any two sufficient amounts of gas give the same LIKE answer. -/
theorem likeGas_agree :
    ∀ (g g' : ℕ) (p t : List ℕ), p.length + t.length < g →
      p.length + t.length < g' → likeGas g p t = likeGas g' p t := by
  intro g
  induction g with
  | zero => intro g' p t h; omega
  | succ g ih =>
    intro g' p t hg hg'
    cases g' with
    | zero => omega
    | succ g' =>
      match p with
      | [] =>
        match t with
        | [] => rfl
        | _ :: _ => rfl
      | c :: p =>
        by_cases hc : c = 37
        · subst hc
          match t with
          | [] =>
            rw [likeGas_pct_nil, likeGas_pct_nil]
            exact ih g' p [] (by simp at hg ⊢; omega) (by simp at hg' ⊢; omega)
          | d :: t2 =>
            rw [likeGas_pct_cons, likeGas_pct_cons]
            rw [ih g' p (d :: t2) (by simp at hg ⊢; omega) (by simp at hg' ⊢; omega)]
            rw [ih g' (37 :: p) t2 (by simp at hg ⊢; omega) (by simp at hg' ⊢; omega)]
        · match t with
          | [] =>
            rw [likeGas_lit_nil g c hc, likeGas_lit_nil g' c hc]
          | d :: t2 =>
            rw [likeGas_lit_cons g c hc, likeGas_lit_cons g' c hc]
            rw [ih g' p t2 (by simp at hg ⊢; omega) (by simp at hg' ⊢; omega)]

/-- Unfolding `likeMatch` at a `%` pattern head and empty text. -/
theorem likeMatch_pct_nil (p : List ℕ) :
    likeMatch (37 :: p) [] = likeMatch p [] := by
  unfold likeMatch
  rw [show (37 :: p).length + List.length ([] : List ℕ) + 1 =
    (p.length + List.length ([] : List ℕ) + 1) + 1 by simp]
  rw [likeGas_pct_nil]

/-- Unfolding `likeMatch` at a `%` pattern head and nonempty text. -/
theorem likeMatch_pct_cons (p : List ℕ) (d : ℕ) (t : List ℕ) :
    likeMatch (37 :: p) (d :: t) =
      (likeMatch p (d :: t) || likeMatch (37 :: p) t) := by
  unfold likeMatch
  rw [show (37 :: p).length + (d :: t).length + 1 =
    (p.length + (d :: t).length + 1) + 1 by simp only [List.length_cons]; omega]
  rw [likeGas_pct_cons]
  rw [likeGas_agree (p.length + (d :: t).length + 1) ((37 :: p).length + t.length + 1)
    (37 :: p) t (by simp only [List.length_cons]; omega)
    (by simp only [List.length_cons]; omega)]

/-- Unfolding `likeMatch` at a literal (non-`%`) pattern head. -/
theorem likeMatch_lit (c : ℕ) (hc : c ≠ 37) (p : List ℕ) (d : ℕ) (t : List ℕ) :
    likeMatch (c :: p) (d :: t) = ((c = 95 || c = d) && likeMatch p t) := by
  unfold likeMatch
  rw [show (c :: p).length + (d :: t).length + 1 =
    (p.length + t.length + 1 + 1) + 1 by simp; omega]
  rw [likeGas_lit_cons _ c hc]
  rw [likeGas_agree (p.length + t.length + 1 + 1) (p.length + t.length + 1)
    p t (by omega) (by omega)]

/-- Every code-point list LIKE-matches itself taken as a pattern. -/
theorem likeMatch_self (s : List ℕ) : likeMatch s s = true := by
  induction s with
  | nil => rfl
  | cons c s ih =>
    by_cases hc : c = 37
    · subst hc
      rw [likeMatch_pct_cons]
      have h : likeMatch (37 :: s) s = true := by
        cases s with
        | nil => rw [likeMatch_pct_nil]; rfl
        | cons d s2 => rw [likeMatch_pct_cons, ih]; simp
      simp [h]
    · rw [likeMatch_lit c hc s c s, ih]
      simp

/-- Appending a trailing `%` to a text used as its own pattern still matches. -/
theorem likeMatch_self_trailing (s : List ℕ) : likeMatch (s ++ [37]) s = true := by
  induction s with
  | nil =>
    show likeMatch [37] [] = true
    rw [likeMatch_pct_nil]
    rfl
  | cons c s ih =>
    by_cases hc : c = 37
    · subst hc
      rw [List.cons_append, likeMatch_pct_cons]
      have h : likeMatch (37 :: (s ++ [37])) s = true := by
        cases s with
        | nil =>
          show likeMatch [37, 37] [] = true
          rw [likeMatch_pct_nil, likeMatch_pct_nil]
          rfl
        | cons d s2 => rw [likeMatch_pct_cons, ih]; simp
      simp [h]
    · rw [List.cons_append, likeMatch_lit c hc (s ++ [37]) c s, ih]
      simp

/-- The pattern `%s%` LIKE-matches the text `s` itself. -/
theorem likeMatch_surround (s : List ℕ) : likeMatch (37 :: (s ++ [37])) s = true := by
  cases s with
  | nil =>
    show likeMatch [37, 37] [] = true
    rw [likeMatch_pct_nil, likeMatch_pct_nil]
    rfl
  | cons c s =>
    rw [likeMatch_pct_cons, likeMatch_self_trailing]
    simp

/-- Lowering a code-point list twice is lowering it once. -/
theorem map_lowerN_idem (l : List ℕ) : (l.map lowerN).map lowerN = l.map lowerN := by
  induction l with
  | nil => rfl
  | cons c t ih => simp [lowerN_idem, ih]

/-- The `ILIKE` pattern built from a query is already fully lowercased:
lowering it again is the identity. -/
theorem ilikePattern_eq (q : String) : ilikePattern q = 37 :: (low q ++ [37]) := by
  unfold ilikePattern low
  simp only [List.map_cons, List.map_append, List.map_nil]
  rw [show lowerN 37 = 37 from rfl, map_lowerN_idem]

/-- A stored row's content always ILIKE-matches its own content as query. -/
theorem contentMatches_self (content : String) (m : Memory)
    (hc : m.content = content) : contentMatches content m = true := by
  unfold contentMatches
  rw [ilikePattern_eq, hc]
  exact likeMatch_surround (low content)

/-- Everything in the retrieval pool clears the importance floor. -/
theorem mem_retrievePool_floor (db : MemStore) (memory_type : Option String)
    (min_salience : ℚ) (m : Memory) (h : m ∈ retrievePool db memory_type min_salience) :
    min_salience ≤ m.importance := by
  unfold retrievePool at h
  cases memory_type with
  | none => exact of_decide_eq_true (List.mem_filter.mp h).2
  | some t =>
    exact of_decide_eq_true (List.mem_filter.mp (List.mem_filter.mp h).1).2

/-! ### Claim theorems -/

/-- C7: every record returned by `retrieve` (SQLite fallback) has importance
at least the caller's floor, for every query, type filter, limit and
floor. -/
theorem claim_C7_retrieve_floor (db : MemStore) (query : String)
    (memory_type : Option String) (limit : ℕ) (min_importance : ℚ) (m : Memory)
    (hm : m ∈ retrieveSqlite db query memory_type limit min_importance) :
    min_importance ≤ m.importance := by
  unfold retrieveSqlite at hm
  split at hm
  · have h1 := List.mem_of_mem_take hm
    have h2 := (List.perm_insertionSort _ _).mem_iff.mp h1
    exact mem_retrievePool_floor _ _ _ _ h2
  · have h1 := List.mem_of_mem_take hm
    have h2 := (List.perm_insertionSort _ _).mem_iff.mp h1
    exact mem_retrievePool_floor _ _ _ _ (List.mem_filter.mp h2).1

/-- Witness for C7 at a concrete store, query and floor. -/
theorem claim_C7_retrieve_floor_witness :
    (mkRat 1 2 : ℚ) ≤ (⟨"id1", "alpha notes", "episodic", mkRat 9 10, [], 0, 0, 0⟩ : Memory).importance :=
  claim_C7_retrieve_floor c7db "*" none 5 (mkRat 1 2) _ (by decide)

/-- C5 counterexample: in the SQLite fallback, `reinforce(id, 0.05)` on a
freshly stored memory returns `False` and leaves the stored importance at its
old value — it does not strictly increase it. -/
theorem claim_C5_counterexample :
    sqliteStore [] 0 "the plants need watering" "episodic" (mkRat 4 5) [] =
      Except.ok ([⟨memoryId "the plants need watering", "the plants need watering",
        "episodic", mkRat 4 5, [], 0, 0, 0⟩], memoryId "the plants need watering")
    ∧ reinforceSqlite
        [⟨memoryId "the plants need watering", "the plants need watering",
          "episodic", mkRat 4 5, [], 0, 0, 0⟩]
        (memoryId "the plants need watering") (mkRat 1 20) =
      (false, [⟨memoryId "the plants need watering", "the plants need watering",
        "episodic", mkRat 4 5, [], 0, 0, 0⟩]) :=
  ⟨rfl, rfl⟩

/-- C5 amended: under the repository's SQLite fallback, `reinforce` is a
no-op — it returns `False` and leaves every stored importance unchanged
(reinforcement happens only through the external SDK backend). -/
theorem claim_C5_reinforce_noop (db : MemStore) (memory_id : String)
    (amount : ℚ) : reinforceSqlite db memory_id amount = (false, db) := rfl

/-- C6: decay after `h` hours multiplies importance by `rate^h`, and is
monotonically non-increasing in `h` for `rate < 1` (and nonnegative
importance). -/
theorem claim_C6_decay (rate v : ℚ) (hr0 : 0 ≤ rate) (hr1 : rate < 1)
    (hv : 0 ≤ v) (h h2 : ℕ) (hh : h ≤ h2) :
    decay rate v h = v * rate ^ h ∧ decay rate v h2 ≤ decay rate v h := by
  refine ⟨rfl, ?_⟩
  unfold decay
  exact mul_le_mul_of_nonneg_left (pow_le_pow_of_le_one hr0 (le_of_lt hr1) hh) hv

/-- Witness for C6 at the documented rate 0.95, importance 0.8, hours 2 ≤ 3. -/
theorem claim_C6_decay_witness :
    decay DECAY_RATE (mkRat 4 5) 2 = (mkRat 4 5) * DECAY_RATE ^ 2
    ∧ decay DECAY_RATE (mkRat 4 5) 3 ≤ decay DECAY_RATE (mkRat 4 5) 2 :=
  claim_C6_decay DECAY_RATE (mkRat 4 5) (by decide)
    (by decide) (by decide) 2 3 (by decide)

/-- C10: storing any content into an empty table succeeds with the id
`sha256(content)[:16]`, and immediately storing the exact same content again
hits the primary key and raises the duplicate-key error instead of
succeeding. -/
theorem claim_C10_duplicate_store (content memory_type : String)
    (importance : ℚ) (tags : List String) (now now2 : ℕ) :
    sqliteStore [] now content memory_type importance tags =
      Except.ok ([⟨memoryId content, content, memory_type, importance, tags,
        now, now, 0⟩], memoryId content)
    ∧ sqliteStore
        [⟨memoryId content, content, memory_type, importance, tags, now, now, 0⟩]
        now2 content memory_type importance tags =
      Except.error "IntegrityError: UNIQUE constraint failed: memories.id" := by
  constructor
  · rfl
  · unfold sqliteStore
    simp

set_option maxRecDepth 100000 in
/-- C8 counterexample: the round-trip fails for `limit = 1` when another
stored record matches the query with higher importance.  Store `"aa"` with
importance 0.9, then `"a"` with importance 0.5; retrieving with query `"a"`
(which both contents contain), floor 0 and `limit = 1` returns only the
`"aa"` record, so the freshly stored `"a"` memory is not in the result
set. -/
theorem claim_C8_counterexample :
    sqliteStore [] 0 "aa" "episodic" (mkRat 9 10) [] =
      Except.ok ([⟨memoryId "aa", "aa", "episodic", mkRat 9 10, [], 0, 0, 0⟩],
        memoryId "aa")
    ∧ (sqliteStore [⟨memoryId "aa", "aa", "episodic", mkRat 9 10, [], 0, 0, 0⟩]
        1 "a" "episodic" (mkRat 1 2) []).toOption =
      some ([⟨memoryId "aa", "aa", "episodic", mkRat 9 10, [], 0, 0, 0⟩,
        ⟨memoryId "a", "a", "episodic", mkRat 1 2, [], 1, 1, 0⟩], memoryId "a")
    ∧ retrieveSqlite
        [⟨memoryId "aa", "aa", "episodic", mkRat 9 10, [], 0, 0, 0⟩,
         ⟨memoryId "a", "a", "episodic", mkRat 1 2, [], 1, 1, 0⟩] "a" none 1 0 =
      [⟨memoryId "aa", "aa", "episodic", mkRat 9 10, [], 0, 0, 0⟩]
    ∧ (⟨memoryId "a", "a", "episodic", mkRat 1 2, [], 1, 1, 0⟩ : Memory) ∉
      retrieveSqlite
        [⟨memoryId "aa", "aa", "episodic", mkRat 9 10, [], 0, 0, 0⟩,
         ⟨memoryId "a", "a", "episodic", mkRat 1 2, [], 1, 1, 0⟩] "a" none 1 0 := by
  refine ⟨rfl, by decide, by decide, by decide⟩

/-- C8 amended: after a successful store, retrieving with the exact content
as query (floor 0, no type filter) returns a result set containing that
memory, provided the content is not the special listing query `"*"`, the
stored importance is at least the floor 0, and `limit` is at least the
number of stored records matching the query — for smaller limits the memory
can be displaced by higher-importance matches. -/
theorem claim_C8_roundtrip (db : MemStore) (now : ℕ) (content memory_type : String)
    (importance : ℚ) (tags : List String) (db2 : MemStore) (mid : String)
    (hstore : sqliteStore db now content memory_type importance tags =
      Except.ok (db2, mid))
    (hstar : content ≠ "*") (h0 : 0 ≤ importance) (limit : ℕ)
    (hlim : ((retrievePool db2 none 0).filter
      (fun m => contentMatches content m)).length ≤ limit) :
    (⟨memoryId content, content, memory_type, importance, tags, now, now, 0⟩ : Memory)
      ∈ retrieveSqlite db2 content none limit 0 := by
  unfold sqliteStore at hstore
  split at hstore
  · exact absurd hstore (by simp)
  · have hdb2 : db2 = db ++
        [⟨memoryId content, content, memory_type, importance, tags, now, now, 0⟩] := by
      have := Except.ok.inj hstore
      exact (Prod.mk.injEq _ _ _ _ ▸ this).1.symm
    subst hdb2
    have hmem : (⟨memoryId content, content, memory_type, importance, tags,
        now, now, 0⟩ : Memory) ∈ retrievePool
        (db ++ [⟨memoryId content, content, memory_type, importance, tags,
          now, now, 0⟩]) none 0 := by
      unfold retrievePool
      refine List.mem_filter.mpr ⟨by simp, ?_⟩
      exact decide_eq_true h0
    have hmatched : (⟨memoryId content, content, memory_type, importance, tags,
        now, now, 0⟩ : Memory) ∈ (retrievePool
        (db ++ [⟨memoryId content, content, memory_type, importance, tags,
          now, now, 0⟩]) none 0).filter (fun m => contentMatches content m) :=
      List.mem_filter.mpr ⟨hmem, contentMatches_self content _ rfl⟩
    unfold retrieveSqlite
    rw [if_neg hstar]
    have hlen : (List.insertionSort (fun a b => b.importance ≤ a.importance)
        ((retrievePool (db ++ [⟨memoryId content, content, memory_type,
          importance, tags, now, now, 0⟩]) none 0).filter
          (fun m => contentMatches content m))).length ≤ limit := by
      rw [(List.perm_insertionSort _ _).length_eq]
      exact hlim
    rw [List.take_of_length_le hlen]
    exact (List.perm_insertionSort _ _).mem_iff.mpr hmatched

/-- Witness for the amended C8: one stored record, query equal to its
content, limit 10. -/
theorem claim_C8_roundtrip_witness :
    (⟨memoryId "hello there friend", "hello there friend", "episodic",
      mkRat 4 5, [], 0, 0, 0⟩ : Memory) ∈
    retrieveSqlite
      [⟨memoryId "hello there friend", "hello there friend", "episodic",
        mkRat 4 5, [], 0, 0, 0⟩] "hello there friend" none 10 0 :=
  claim_C8_roundtrip [] 0 "hello there friend" "episodic" (mkRat 4 5) [] _ _
    rfl (by decide) (by decide) 10 (by decide)

/-- Fence stripping leaves the package-fallback string unchanged. -/
theorem strip_intent_package :
    strip_fences_intent fallback_package_json = fallback_package_json := by decide

/-- Fence stripping leaves the action-fallback string unchanged. -/
theorem strip_intent_action :
    strip_fences_intent fallback_action_json = fallback_action_json := by decide

/-- Fence stripping leaves the memory-fallback string unchanged. -/
theorem strip_intent_memory :
    strip_fences_intent fallback_memory_json = fallback_memory_json := by decide

/-- Fence stripping leaves the chat-fallback string unchanged. -/
theorem strip_intent_chat :
    strip_fences_intent fallback_chat_json = fallback_chat_json := by decide

/-- Sentiment fence stripping leaves the package-fallback string unchanged. -/
theorem strip_sentiment_package :
    strip_fences_sentiment fallback_package_json = fallback_package_json := by decide

/-- Sentiment fence stripping leaves the action-fallback string unchanged. -/
theorem strip_sentiment_action :
    strip_fences_sentiment fallback_action_json = fallback_action_json := by decide

/-- Sentiment fence stripping leaves the memory-fallback string unchanged. -/
theorem strip_sentiment_memory :
    strip_fences_sentiment fallback_memory_json = fallback_memory_json := by decide

/-- Sentiment fence stripping leaves the chat-fallback string unchanged. -/
theorem strip_sentiment_chat :
    strip_fences_sentiment fallback_chat_json = fallback_chat_json := by decide

/-- C1: the classifier is total.  (i) When the (fence-stripped) model output
fails to parse, `analyze_intent` returns the hardcoded neutral default and
`analyze_sentiment` its own; by construction of the embedding no exception
escapes — every failure path lands in a default.  (ii) Without a valid API
key both functions return the deterministic keyword-based fallback of the
message (given that `json.loads` parses the four concrete fallback strings
as CPython does). -/
theorem claim_C1_classifier_total (env : Env) (n : ℕ) (user_message : String)
    (hp : FallbacksParse env.jsonParse) :
    (env.jsonParse (strip_fences_intent
        (call_fast env n intent_system_prompt user_message).2) = none →
      (analyze_intent env n user_message).2 = default_intent)
    ∧ (env.jsonParse (strip_fences_sentiment
        (call_fast env n sentiment_system_prompt user_message).2) = none →
      (analyze_sentiment env n user_message).2 = default_sentiment)
    ∧ (env.has_valid_api_key = false →
      (analyze_intent env n user_message).2 = expected_fallback_intent user_message
      ∧ (analyze_sentiment env n user_message).2 =
        expected_fallback_intent user_message) := by
  obtain ⟨hp1, hp2, hp3, hp4⟩ := hp
  refine ⟨?_, ?_, ?_⟩
  · intro h
    simp [analyze_intent, h]
  · intro h
    simp [analyze_sentiment, h]
  · intro hk
    have hcf_i : call_fast env n intent_system_prompt user_message =
        (n, fallback_analysis intent_system_prompt user_message) := by
      simp [call_fast, hk]
    have hcf_s : call_fast env n sentiment_system_prompt user_message =
        (n, fallback_analysis sentiment_system_prompt user_message) := by
      simp [call_fast, hk]
    constructor
    · simp only [analyze_intent, hcf_i]
      unfold fallback_analysis expected_fallback_intent
      by_cases h1 : (["install", "package", "apt", "yay", "pacman"].any
          fun w => hasInfixL (low user_message) (codes w)) = true
      · simp [h1, strip_intent_package, hp1]
      · by_cases h2 : (["run", "execute", "command", "git", "docker", "build"].any
            fun w => hasInfixL (low user_message) (codes w)) = true
        · simp [h1, h2, strip_intent_action, hp2]
        · by_cases h3 : (["remember", "previous", "before", "said"].any
              fun w => hasInfixL (low user_message) (codes w)) = true
          · simp [h1, h2, h3, strip_intent_memory, hp3]
          · simp [h1, h2, h3, strip_intent_chat, hp4]
    · simp only [analyze_sentiment, hcf_s]
      unfold fallback_analysis expected_fallback_intent
      by_cases h1 : (["install", "package", "apt", "yay", "pacman"].any
          fun w => hasInfixL (low user_message) (codes w)) = true
      · simp [h1, strip_sentiment_package, hp1]
      · by_cases h2 : (["run", "execute", "command", "git", "docker", "build"].any
            fun w => hasInfixL (low user_message) (codes w)) = true
        · simp [h1, h2, strip_sentiment_action, hp2]
        · by_cases h3 : (["remember", "previous", "before", "said"].any
              fun w => hasInfixL (low user_message) (codes w)) = true
          · simp [h1, h2, h3, strip_sentiment_memory, hp3]
          · simp [h1, h2, h3, strip_sentiment_chat, hp4]

/-- Witness for C1: the concrete offline environment, on the message
`"hello"`, classifies via the keyword fallback (the chat branch). -/
theorem claim_C1_classifier_total_witness :
    env0.has_valid_api_key = false
    ∧ (analyze_intent env0 0 "hello").2 = expected_fallback_intent "hello"
    ∧ (analyze_sentiment env0 0 "hello").2 = expected_fallback_intent "hello" := by
  have h := (claim_C1_classifier_total env0 0 "hello"
    ⟨rfl, rfl, rfl, rfl⟩).2.2 rfl
  exact ⟨rfl, h.1, h.2⟩

/-- The memory table survives `get_quality_response` unchanged: its only
write path, `_store_interaction`, never awaits its store coroutines. -/
theorem get_quality_response_preserves_store (env : Env) (db : MemStore)
    (n now : ℕ) (user_message : String) (analysis : AnalysisResult)
    (session_id : String) :
    ((get_quality_response env db n now user_message analysis session_id).1).1 = db := by
  unfold get_quality_response
  split
  · rfl
  · rfl

/-- No run of `analyze_and_respond` — quick or full, successful or failing —
modifies the memory table: the interaction-store calls are coroutines that
are never awaited. -/
theorem analyze_and_respond_preserves_store (env : Env) (db : MemStore)
    (n now : ℕ) (user_message session_id : String)
    (use_quick_mode include_thinking : Bool) :
    ((analyze_and_respond env db n now user_message session_id use_quick_mode
      include_thinking).1).1 = db := by
  unfold analyze_and_respond
  by_cases hq : (use_quick_mode && is_simple_query user_message) = true
  · simp [hq]
  · simp only [Bool.not_eq_true] at hq
    rcases heng : engine_analyze env n user_message session_id with ⟨n1, r⟩
    cases r with
    | error e => simp [hq, heng]
    | ok analysis =>
      rcases hgq : get_quality_response env db n1 now user_message analysis
        session_id with ⟨st, r2⟩
      have hst : st.1 = db := by
        have h := get_quality_response_preserves_store env db n1 now
          user_message analysis session_id
        rw [hgq] at h
        exact h
      cases r2 with
      | error e => simp [hq, heng, hgq, hst]
      | ok resp => simp [hq, heng, hgq, hst]

set_option maxRecDepth 100000 in
/-- C2 failing input: a successful full (non-quick) pipeline run over the
online environment `env2`, starting from an empty memory table, ends with
the memory table still empty — the user message and the assistant response
are not stored, because `_store_interaction` never awaits
`self.memory.store(...)`. -/
theorem claim_C2_interaction_not_stored :
    ((analyze_and_respond env2 [] 0 0 "please refactor the analytics module"
      "s1" false false).1).1 = ([] : MemStore)
    ∧ ((analyze_and_respond env2 [] 0 0 "please refactor the analytics module"
      "s1" false false).2).isOk = true := by
  constructor
  · exact analyze_and_respond_preserves_store env2 [] 0 0 _ "s1" false false
  · decide

/-- C9: for every message that `is_simple_query` marks simple, requesting
quick mode returns the canned result with the memory table and the
remote-call counter unchanged (no remote model call), zero reported usage
tokens, `quick_mode = True` and the local `openaura/heart` model tag —
the context-assembly and quality-responder stages are never entered. -/
theorem claim_C9_quick_mode (env : Env) (db : MemStore) (n now : ℕ)
    (user_message session_id : String) (include_thinking : Bool)
    (h : is_simple_query user_message = true) :
    analyze_and_respond env db n now user_message session_id true
        include_thinking =
      ((db, n), Except.ok (quick_run_result user_message include_thinking))
    ∧ (quick_run_result user_message include_thinking).usage = zero_usage
    ∧ (quick_run_result user_message include_thinking).quick_mode = true
    ∧ (quick_run_result user_message include_thinking).model =
      some "openaura/heart" := by
  refine ⟨?_, rfl, rfl, rfl⟩
  simp [analyze_and_respond, h]

/-- Witness for C9: `"hi"` is simple, and quick mode answers it canned with
no state change over the concrete offline environment. -/
theorem claim_C9_quick_mode_witness :
    is_simple_query "hi" = true
    ∧ analyze_and_respond env0 [] 0 0 "hi" "s" true false =
      (([], 0), Except.ok (quick_run_result "hi" false)) :=
  ⟨by decide, (claim_C9_quick_mode env0 [] 0 0 "hi" "s" false (by decide)).1⟩

/-- C3 amended: when the fast call throws and the quality call succeeds with
non-empty content, the final response equals the quality content — but
`preview_used` comes back `True` (it flags that the instant-preview pipeline
produced the response, not whether a draft was shown; it is `False` only on
the fallback paths that abandon the pipeline). -/
theorem claim_C3_preview_content (env : Env) (context : PyVal)
    (fastErr qc : String) (qm : Option String) (gw : Except String String)
    (hctx : context_build_raises context = false) (hqc : qc ≠ "") :
    chat_with_preview env context (GatherItem.exn fastErr)
        (GatherItem.resp 200 (some (qc, qm))) =
      ⟨none, some ⟨qc, qm.getD QUALITY_MODEL⟩, context, none⟩
    ∧ chat_route_merge (chat_with_preview env context (GatherItem.exn fastErr)
        (GatherItem.resp 200 (some (qc, qm)))) gw = Except.ok (qc, true) := by
  have h1 : chat_with_preview env context (GatherItem.exn fastErr)
      (GatherItem.resp 200 (some (qc, qm))) =
      ⟨none, some ⟨qc, qm.getD QUALITY_MODEL⟩, context, none⟩ := by
    unfold chat_with_preview
    simp [hctx, parse_gather]
  refine ⟨h1, ?_⟩
  rw [h1]
  unfold chat_route_merge
  simp [hqc]

/-- Witness for the amended C3 at a concrete failing fast call and quality
answer. -/
theorem claim_C3_preview_content_witness :
    chat_route_merge (chat_with_preview env0 (PyVal.pydict [])
      (GatherItem.exn "httpx.ReadTimeout")
      (GatherItem.resp 200 (some ("Answer.", none))))
      (Except.error "gateway offline") = Except.ok ("Answer.", true) :=
  (claim_C3_preview_content env0 (PyVal.pydict []) "httpx.ReadTimeout"
    "Answer." none (Except.error "gateway offline") rfl (by decide)).2

/-- C3 counterexample: in the fast-throws/quality-succeeds scenario the
route returns `preview_used = True` even though no draft was shown, so the
flag does not reflect the absence of a draft (which would be
`preview_used = False`). -/
theorem claim_C3_counterexample :
    chat_route_merge (chat_with_preview env0 (PyVal.pydict [])
      (GatherItem.exn "httpx.ReadTimeout")
      (GatherItem.resp 200 (some ("Answer.", none))))
      (Except.error "gateway offline") = Except.ok ("Answer.", true)
    ∧ chat_route_merge (chat_with_preview env0 (PyVal.pydict [])
      (GatherItem.exn "httpx.ReadTimeout")
      (GatherItem.resp 200 (some ("Answer.", none))))
      (Except.error "gateway offline") ≠ Except.ok ("Answer.", false) := by
  have h1 : chat_route_merge (chat_with_preview env0 (PyVal.pydict [])
      (GatherItem.exn "httpx.ReadTimeout")
      (GatherItem.resp 200 (some ("Answer.", none))))
      (Except.error "gateway offline") = Except.ok ("Answer.", true) := rfl
  refine ⟨h1, ?_⟩
  rw [h1]
  intro h
  simp at h

/-- C4 amended: if the quality half fails while the preview half succeeds,
the preview is promoted to the final (quality) answer; and when both halves
fail, `chat_with_preview` returns normally with both halves `None` and *no*
error field — the `error` key appears only when the preview orchestration
itself raises, not when both model calls fail. -/
theorem claim_C4_partial_failure (env : Env) (context : PyVal)
    (f q : GatherItem) (hctx : context_build_raises context = false) :
    (∀ p, parse_gather q QUALITY_MODEL = none →
      parse_gather f env.fast_model = some p →
      chat_with_preview env context f q = ⟨none, some p, context, none⟩)
    ∧ (parse_gather q QUALITY_MODEL = none →
      parse_gather f env.fast_model = none →
      chat_with_preview env context f q = ⟨none, none, context, none⟩) := by
  constructor
  · intro p hq hf
    unfold chat_with_preview
    simp [hctx, hq, hf]
  · intro hq hf
    unfold chat_with_preview
    simp [hctx, hq, hf]

/-- Witness for the amended C4: both halves failing yields the plain
both-`None` result, and a failing quality half promotes a concrete draft. -/
theorem claim_C4_partial_failure_witness :
    chat_with_preview env0 (PyVal.pydict []) (GatherItem.exn "t1")
      (GatherItem.exn "t2") = ⟨none, none, PyVal.pydict [], none⟩
    ∧ chat_with_preview env0 (PyVal.pydict [])
      (GatherItem.resp 200 (some ("draft", none))) (GatherItem.exn "q") =
      ⟨none, some ⟨"draft", "openai/gpt-oss-20b:nitro"⟩, PyVal.pydict [], none⟩ :=
  ⟨(claim_C4_partial_failure env0 (PyVal.pydict []) _ _ rfl).2 rfl rfl,
   (claim_C4_partial_failure env0 (PyVal.pydict []) _ _ rfl).1
     ⟨"draft", "openai/gpt-oss-20b:nitro"⟩ rfl rfl⟩

/-- C4 counterexample: when both the fast and the quality calls fail
(captured exceptions from `asyncio.gather`), the returned dict has no
`error` field — refuting "returns … with an explicit error field in the
result". -/
theorem claim_C4_counterexample :
    (chat_with_preview env0 (PyVal.pydict []) (GatherItem.exn "httpx.ReadTimeout")
      (GatherItem.exn "httpx.ReadTimeout")).error = none
    ∧ chat_with_preview env0 (PyVal.pydict []) (GatherItem.exn "httpx.ReadTimeout")
      (GatherItem.exn "httpx.ReadTimeout") =
      ⟨none, none, PyVal.pydict [], none⟩ :=
  ⟨rfl, rfl⟩

end Openaur
